import Mathlib

/-!
Verification of the TCP relay core of `shadowsocks/tcprelay.py`.

The Python source is shallowly embedded: bytes become `List Nat` (each
element a byte value), the per-connection handler becomes a `HandlerState`
record, socket / cipher / clock effects are supplied by an `Env` record,
and side effects (sends, event-loop registrations, log warnings, DNS
requests) are recorded in a trace of `Action`s.  Functions of the source
keep their names (camel-cased).  Members of sibling modules that are not
part of the source file (`common`, `eventloop`, `shell`) are modelled from
the spec and marked as such in their doc comments.
-/

namespace TcpRelay

/-! ## Byte-level helpers -/

/-- `struct.pack('>H', n)`: two big-endian bytes.  The source raises for
`n ≥ 2^16`; every call site passes a length bounded by the read buffer, so
we simply reduce modulo byte positions. -/
def pack16 (n : Nat) : List Nat := [n / 256 % 256, n % 256]

/-- `struct.unpack('>H', l)[0]` on the first two bytes of `l`. -/
def unpack16 (l : List Nat) : Nat := 256 * l.headD 0 + (l.drop 1).headD 0

/-- `struct.pack('>I', n)`: four big-endian bytes. -/
def pack32 (n : Nat) : List Nat :=
  [n / 16777216 % 256, n / 65536 % 256, n / 256 % 256, n % 256]

/-- Bytes of a host name string, used where the source converts between
`str` and `bytes`. -/
def strBytes (s : String) : List Nat := s.toList.map Char.toNat

/-! ## Constants

`ONETIMEAUTH_*` and `ADDRTYPE_AUTH` are imported by the source from
`shadowsocks.common`, which is not part of the source tree. -/

/-- Modelled from the spec: the per-chunk MAC is 10 bytes (§4.2). -/
def ONETIMEAUTH_BYTES : Nat := 10

/-- Modelled from the spec: the length prefix is 2 bytes big-endian (§4.2). -/
def ONETIMEAUTH_CHUNK_DATA_LEN : Nat := 2

/-- Modelled from the spec: the chunk header is `len || mac`, 12 bytes (§4.2). -/
def ONETIMEAUTH_CHUNK_BYTES : Nat :=
  ONETIMEAUTH_BYTES + ONETIMEAUTH_CHUNK_DATA_LEN

/-- Modelled from the spec: the address-type high bit signalling OTA (§4.1). -/
def ADDRTYPE_AUTH : Nat := 0x10

def TIMEOUTS_CLEAN_SIZE : Nat := 512

/-- Modelled from the spec: the activity-coalescing floor
`eventloop.TIMEOUT_PRECISION` (§5 Timeouts), from a module absent from
the source tree. -/
def TIMEOUT_PRECISION : Int := 10

/-- Modelled from the spec: event-loop readiness masks (§6); the exact bit
values are immaterial, only that the bits are distinct. -/
def POLL_IN : Nat := 1
def POLL_HUP : Nat := 2
def POLL_OUT : Nat := 4
def POLL_ERR : Nat := 8

def WAIT_STATUS_INIT : Nat := 0
def WAIT_STATUS_READING : Nat := 1
def WAIT_STATUS_WRITING : Nat := 2
def WAIT_STATUS_READWRITING : Nat := WAIT_STATUS_READING ||| WAIT_STATUS_WRITING

def METHOD_NOAUTH : Nat := 0
def CMD_CONNECT : Nat := 1
def CMD_UDP_ASSOCIATE : Nat := 3

/-! ## OTA chunk framing (`_ota_chunk_data` / `_ota_chunk_data_gen`)

The truncated HMAC-SHA1 (`onetimeauth_gen` in `shadowsocks.common`) is kept
abstract as a parameter `hG : key → data → mac`; `onetimeauth_verify` is
equality with the generated MAC, as the spec describes (§4.2). -/

/-- The four OTA reassembly fields of the handler:
`_ota_buff_head`, `_ota_buff_data`, `_ota_len`, `_ota_chunk_idx`. -/
structure OtaState where
  buffHead : List Nat
  buffData : List Nat
  otaLen : Nat
  chunkIdx : Nat
deriving DecidableEq, Repr

/-- Result of one `_ota_chunk_data` call. `delivered = some u` means the
final `data_cb(unchunk_data)` ran with `u`; `none` means the early
"wait more data" return skipped the callback.  `verified`/`failed` count
the chunks whose MAC check passed/failed during the call (ghost data used
to state the chunk-index invariant). -/
structure OtaOut where
  st : OtaState
  delivered : Option (List Nat)
  verified : Nat
  failed : Nat
deriving DecidableEq, Repr

/-- The payload-accumulation part of one `while` iteration of
`_ota_chunk_data` (source lines 477-494): extends `_ota_buff_data`, and on
a complete chunk verifies the MAC, accumulating or dropping the payload
and resetting the buffers. -/
def otaPayload (hG : List Nat → List Nat → List Nat) (dIv : List Nat)
    (st : OtaState) (data un : List Nat) (v f : Nat) :
    OtaState × List Nat × List Nat × Nat × Nat :=
  let tk := min (st.otaLen - st.buffData.length) data.length
  let bd := st.buffData ++ data.take tk
  let data' := data.drop tk
  if bd.length = st.otaLen then
    let hsh := st.buffHead.drop ONETIMEAUTH_CHUNK_DATA_LEN
    if hsh = hG (dIv ++ pack32 st.chunkIdx) bd then
      (⟨[], [], 0, st.chunkIdx + 1⟩, data', un ++ bd, v + 1, f)
    else
      (⟨[], [], 0, st.chunkIdx⟩, data', un, v, f + 1)
  else ({st with buffData := bd}, data', un, v, f)

/-- The `while len(data) > 0` loop of `_ota_chunk_data`.  Each iteration
consumes at least one byte of `data` on every reachable state, so
`data.length + 1` fuel suffices; the fuel-exhausted base case is
unreachable from the initial states the handler produces. -/
def otaLoop (hG : List Nat → List Nat → List Nat) (dIv : List Nat) :
    Nat → OtaState → List Nat → List Nat → Nat → Nat → OtaOut
  | 0, st, _, un, v, f => ⟨st, some un, v, f⟩
  | fuel + 1, st, data, un, v, f =>
    if data = [] then ⟨st, some un, v, f⟩
    else if st.otaLen = 0 then
      let tk := ONETIMEAUTH_CHUNK_BYTES - st.buffHead.length
      let head' := st.buffHead ++ data.take tk
      let data' := data.drop tk
      if head'.length < ONETIMEAUTH_CHUNK_BYTES then
        -- "wait more data": returns without invoking data_cb
        ⟨{st with buffHead := head'}, none, v, f⟩
      else
        let st' : OtaState :=
          { st with buffHead := head',
                    otaLen := unpack16 (head'.take ONETIMEAUTH_CHUNK_DATA_LEN) }
        let (st'', data'', un', v', f') := otaPayload hG dIv st' data' un v f
        otaLoop hG dIv fuel st'' data'' un' v' f'
    else
      let (st'', data'', un', v', f') := otaPayload hG dIv st data un v f
      otaLoop hG dIv fuel st'' data'' un' v' f'

/-- `TCPRelayHandler._ota_chunk_data` acting on the handler's four OTA
fields, with the cryptor's `decipher_iv` passed explicitly. -/
def otaChunkData (hG : List Nat → List Nat → List Nat) (dIv : List Nat)
    (st : OtaState) (data : List Nat) : OtaOut :=
  otaLoop hG dIv (data.length + 1) st data [] 0 0

/-- `TCPRelayHandler._ota_chunk_data_gen`: frame one payload and advance
the outbound chunk counter. -/
def otaChunkDataGen (hG : List Nat → List Nat → List Nat) (cIv : List Nat)
    (st : OtaState) (data : List Nat) : List Nat × OtaState :=
  let key := cIv ++ pack32 st.chunkIdx
  (pack16 data.length ++ hG key data ++ data, {st with chunkIdx := st.chunkIdx + 1})

/-! ## Handler data model -/

/-- The handler stages (`STAGE_*` constants of the source). -/
inductive Stage where
  | init | addr | udpAssoc | dns | connecting | stream | destroyed
deriving DecidableEq, Repr

/-- The two sockets of a handler. -/
inductive Tgt where
  | local | remote
deriving DecidableEq, Repr

/-- Side effects a handler step can perform, recorded as a trace:
attempted socket sends, event-loop (de)registrations, warning/error logs,
fd-map deletions, DNS requests and callback removal, and removal from the
relay's timeout queue. -/
inductive Action where
  | send (t : Tgt) (data : List Nat)
  | modify (t : Tgt) (mask : Nat)
  | loopAdd (t : Tgt) (mask : Nat)
  | loopRemove (t : Tgt)
  | fdDel (t : Tgt)
  | warn
  | logError
  | resolve (host : List Nat)
  | dnsRemoveCb
  | serverRemoveHandler
deriving DecidableEq, Repr

/-- The mutable state of one `TCPRelayHandler`.  Sockets are represented
by liveness flags (`True` iff the corresponding field is not `None`), and
the cryptor's IVs and key are carried as byte strings per the Cryptor
contract (§6). -/
structure HandlerState where
  isLocal : Bool
  isTunnel : Bool
  stage : Stage
  localSock : Bool
  remoteSock : Bool
  upstreamStatus : Nat
  downstreamStatus : Nat
  dataToLocal : List (List Nat)
  dataToRemote : List (List Nat)
  otaEnable : Bool
  otaEnableSession : Bool
  ota : OtaState
  fastopenConnected : Bool
  cfgFastOpen : Bool
  lastActivity : Int
  tunnelRemote : String
  tunnelRemotePort : Nat
  tunnelPort : Nat
  cipherIv : List Nat
  decipherIv : List Nat
  key : List Nat
  chosenServer : String × Nat
  remoteAddress : Option (List Nat × Nat)
deriving DecidableEq, Repr

/-- Result of one `send` on a non-blocking socket: `ok n` bytes accepted,
a transient error (`EAGAIN`/`EINPROGRESS`/`EWOULDBLOCK`), or any other
`OSError`. -/
inductive SendRes where
  | ok (n : Nat)
  | errTransient
  | errFatal
deriving DecidableEq, Repr

/-- Result of one `recv`: data (empty list = peer EOF), a transient error
(`ETIMEDOUT`/`EAGAIN`/`EWOULDBLOCK`), or any other `OSError` (which the
source's bare `except` swallows, leaving `data = None`). -/
inductive RecvRes where
  | ok (bs : List Nat)
  | errTransient
  | errFatal
deriving DecidableEq, Repr

/-- Result of the fast-open `sendto`. -/
inductive FastRes where
  | sent (n : Nat)
  | inProgress
  | notConn
  | errOther
deriving DecidableEq, Repr

/-- The handler's environment for one event: socket read results, send
outcomes, the cryptor (`decrypt` returns `none` when it raises), the
truncated HMAC (`hGen key data`), the clock, and the facts needed by the
remote-socket creation and the UDP-associate reply. -/
structure Env where
  recvLocal : RecvRes
  recvRemote : RecvRes
  send : Tgt → List Nat → SendRes
  decrypt : List Nat → Option (List Nat)
  encrypt : List Nat → List Nat
  hGen : List Nat → List Nat → List Nat
  now : Int
  createRemoteOk : Bool
  fastOpenSend : List Nat → FastRes
  localFamilyV6 : Bool
  localBoundAddr : List Nat
  localBoundPort : Nat

/-- Result of an inner handler step: `exn` means a Python exception is
propagating out of the step (with the state and trace as mutated so far). -/
inductive HRes where
  | ok (s : HandlerState) (t : List Action)
  | exn (s : HandlerState) (t : List Action)

/-! ## Handler operations -/

/-- `TCPRelayHandler.destroy` (source lines 701-732): idempotent teardown.
Sets the stage first, releases both sockets and asks the loop, fd map,
resolver and server to forget the handler. -/
def destroy (s : HandlerState) : HandlerState × List Action :=
  if s.stage = Stage.destroyed then (s, [])
  else
    let s1 := {s with stage := Stage.destroyed}
    let (s2, t2) :=
      if s1.remoteSock then
        ({s1 with remoteSock := false}, [Action.loopRemove .remote, Action.fdDel .remote])
      else (s1, [])
    let (s3, t3) :=
      if s2.localSock then
        ({s2 with localSock := false}, [Action.loopRemove .local, Action.fdDel .local])
      else (s2, [])
    (s3, t2 ++ t3 ++ [Action.dnsRemoveCb, Action.serverRemoveHandler])

/-- Modelled from the spec: `shell.exception_handle(self_=True, destroy=True)`
(§7) — a propagating exception is logged and the handler destroyed. -/
def guardDestroy (r : HRes) : HandlerState × List Action :=
  match r with
  | .ok s t => (s, t)
  | .exn s t =>
    let (s', t') := destroy s
    (s', t ++ [Action.logError] ++ t')

/-- The event mask recomputed for the local socket
(`_update_stream`, source lines 198-204). -/
def localEventMask (s : HandlerState) : Nat :=
  POLL_ERR
    ||| (if s.downstreamStatus &&& WAIT_STATUS_WRITING ≠ 0 then POLL_OUT else 0)
    ||| (if s.upstreamStatus &&& WAIT_STATUS_READING ≠ 0 then POLL_IN else 0)

/-- The event mask recomputed for the remote socket
(`_update_stream`, source lines 205-211). -/
def remoteEventMask (s : HandlerState) : Nat :=
  POLL_ERR
    ||| (if s.downstreamStatus &&& WAIT_STATUS_READING ≠ 0 then POLL_IN else 0)
    ||| (if s.upstreamStatus &&& WAIT_STATUS_WRITING ≠ 0 then POLL_OUT else 0)

/-- Which stream direction a status update addresses (`STREAM_UP`/`STREAM_DOWN`). -/
inductive StreamDir where
  | up | down
deriving DecidableEq, Repr

/-- `TCPRelayHandler._update_stream`: set one direction's wait status and,
if it changed, re-register both live sockets with the recomputed masks. -/
def updateStream (s : HandlerState) (d : StreamDir) (status : Nat) :
    HandlerState × List Action :=
  let (s', dirty) :=
    match d with
    | .down =>
      if s.downstreamStatus ≠ status then ({s with downstreamStatus := status}, true)
      else (s, false)
    | .up =>
      if s.upstreamStatus ≠ status then ({s with upstreamStatus := status}, true)
      else (s, false)
  if dirty then
    let t1 := if s'.localSock then [Action.modify .local (localEventMask s')] else []
    let t2 := if s'.remoteSock then [Action.modify .remote (remoteEventMask s')] else []
    (s', t1 ++ t2)
  else (s, [])

/-- `TCPRelayHandler._write_to_sock` (source lines 213-251): one `send`
attempt; a partial or transiently-failed send buffers the remainder and
switches the direction to waiting-to-write, a complete send switches it
back to waiting-to-read, any other error destroys the handler. -/
def writeToSock (env : Env) (s : HandlerState) (data : List Nat) (tgt : Tgt) :
    HandlerState × List Action × Bool :=
  let live := match tgt with | .local => s.localSock | .remote => s.remoteSock
  if data = [] ∨ live = false then (s, [], false)
  else
    match env.send tgt data with
    | .errFatal =>
      let (s', t') := destroy s
      (s', [Action.send tgt data, Action.logError] ++ t', false)
    | .errTransient =>
      -- uncomplete, with the whole of `data` still unsent
      match tgt with
      | .local =>
        let (s', t') :=
          updateStream {s with dataToLocal := s.dataToLocal ++ [data]} .down WAIT_STATUS_WRITING
        (s', Action.send tgt data :: t', true)
      | .remote =>
        let (s', t') :=
          updateStream {s with dataToRemote := s.dataToRemote ++ [data]} .up WAIT_STATUS_WRITING
        (s', Action.send tgt data :: t', true)
    | .ok n =>
      if n < data.length then
        let rest := data.drop n
        match tgt with
        | .local =>
          let (s', t') :=
            updateStream {s with dataToLocal := s.dataToLocal ++ [rest]} .down WAIT_STATUS_WRITING
          (s', Action.send tgt data :: t', true)
        | .remote =>
          let (s', t') :=
            updateStream {s with dataToRemote := s.dataToRemote ++ [rest]} .up WAIT_STATUS_WRITING
          (s', Action.send tgt data :: t', true)
      else
        match tgt with
        | .local =>
          let (s', t') := updateStream s .down WAIT_STATUS_READING
          (s', Action.send tgt data :: t', true)
        | .remote =>
          let (s', t') := updateStream s .up WAIT_STATUS_READING
          (s', Action.send tgt data :: t', true)

/-- `TCPRelay.update_activity` as it affects the handler
(source lines 797-813): refresh `last_activity` unless the previous
refresh was under `TIMEOUT_PRECISION` seconds ago. -/
def updateActivity (env : Env) (s : HandlerState) : HandlerState :=
  if env.now - s.lastActivity < TIMEOUT_PRECISION then s
  else {s with lastActivity := env.now}

/-! ## SOCKS5 / shadowsocks header handling -/

/-- Modelled from the spec: the shared header parser `common.parse_header`
(§4.1, §6), absent from the source tree.  Yields
`(addrtype, dest_addr_bytes, dest_port, header_length)`; the low nibble of
the address-type byte selects IPv4 (1), domain (3) or IPv6 (4), and the
`0x10` bit carries the OTA flag. -/
def parseHeader (d : List Nat) : Option (Nat × List Nat × Nat × Nat) :=
  match d with
  | [] => none
  | atyp :: rest =>
    let base := atyp &&& 0xF
    if base = 1 then
      if 7 ≤ d.length then
        some (atyp, rest.take 4, unpack16 ((d.drop 5).take 2), 7)
      else none
    else if base = 4 then
      if 19 ≤ d.length then
        some (atyp, rest.take 16, unpack16 ((d.drop 17).take 2), 19)
      else none
    else if base = 3 then
      match rest with
      | [] => none
      | alen :: _ =>
        if 4 + alen ≤ d.length then
          some (atyp, (d.drop 2).take alen, unpack16 ((d.drop (2 + alen)).take 2), 4 + alen)
        else none
    else none

/-- Modelled from the spec: `common.add_header` used in tunnel mode (§4.1)
— prepend a domain-typed shadowsocks request header for the fixed tunnel
destination. -/
def addHeader (host : String) (port : Nat) (data : List Nat) : List Nat :=
  3 :: (strBytes host).length :: (strBytes host ++ pack16 port ++ data)

/-- The outcome of `_check_auth_method`: normal return, or one of the two
helper exceptions it raises. -/
inductive AuthRes where
  | accepted
  | badHeader
  | noAcceptableMethods
deriving DecidableEq, Repr

/-- `TCPRelayHandler._check_auth_method` (source lines 519-541). -/
def checkAuthMethod (d : List Nat) : AuthRes :=
  if d.length < 3 then .badHeader
  else
    let socksVersion := d.headD 0
    let nmethods := (d.drop 1).headD 0
    if socksVersion ≠ 5 then .badHeader
    else if nmethods < 1 ∨ d.length ≠ nmethods + 2 then .badHeader
    else if METHOD_NOAUTH ∈ d.drop 2 then .accepted
    else .noAcceptableMethods

/-- `TCPRelayHandler._handle_stage_init` (source lines 543-555): destroy on
a bad header, reply `05 FF` and destroy when no method is acceptable,
otherwise reply `05 00` and advance to ADDR. -/
def handleStageInit (env : Env) (s : HandlerState) (d : List Nat) :
    HandlerState × List Action :=
  match checkAuthMethod d with
  | .badHeader => destroy s
  | .noAcceptableMethods =>
    let (s1, t1, _) := writeToSock env s [0x05, 0xff] .local
    let (s2, t2) := destroy s1
    (s2, t1 ++ t2)
  | .accepted =>
    let (s1, t1, _) := writeToSock env s [0x05, 0x00] .local
    ({s1 with stage := Stage.addr}, t1)

/-- `TCPRelayHandler._handle_stage_stream` (source lines 506-517). -/
def handleStageStream (env : Env) (s : HandlerState) (d : List Nat) :
    HandlerState × List Action :=
  if s.isLocal then
    let (d1, s1) :=
      if s.otaEnableSession then
        let (fr, ota') := otaChunkDataGen env.hGen s.cipherIv s.ota d
        (fr, {s with ota := ota'})
      else (d, s)
    let (s2, t2, _) := writeToSock env s1 (env.encrypt d1) .remote
    (s2, t2)
  else
    if s.otaEnableSession then
      let out := otaChunkData env.hGen s.decipherIv s.ota d
      let s1 := {s with ota := out.st}
      let tw := List.replicate out.failed Action.warn
      match out.delivered with
      | none => (s1, tw)
      | some u =>
        -- data_cb = _write_to_sock_remote
        let (s2, t2, _) := writeToSock env s1 u .remote
        (s2, tw ++ t2)
    else
      let (s2, t2, _) := writeToSock env s d .remote
      (s2, t2)

/-- The tail of `_handle_stage_addr` after the header was parsed and (in
server role) the OTA header checks passed (source lines 363-396).  `hlen`
already includes the 10 OTA bytes when the server verified them. -/
def stageAddrTail (env : Env) (s : HandlerState) (d : List Nat)
    (atyp : Nat) (raddr : List Nat) (rport : Nat) (hlen : Nat) : HRes :=
  let s := {s with remoteAddress := some (raddr, rport)}
  let (s, t0) := updateStream s .up WAIT_STATUS_WRITING
  let s := {s with stage := Stage.dns}
  if s.isLocal then
    let (s, t1, _) :=
      if s.isTunnel then (s, ([] : List Action), true)
      else writeToSock env s [0x05, 0x00, 0x00, 0x01, 0x00, 0x00, 0x00, 0x00, 0x10, 0x10] .local
    let d1 :=
      if s.otaEnableSession then
        let d' := (atyp ||| ADDRTYPE_AUTH) :: d.drop 1
        let mac := env.hGen (s.cipherIv ++ s.key) d'
        d'.take hlen ++ mac ++ d'.drop hlen
      else d
    let s := {s with dataToRemote := s.dataToRemote ++ [env.encrypt d1]}
    .ok s (t0 ++ t1 ++ [Action.resolve (strBytes s.chosenServer.1)])
  else
    if s.otaEnableSession then
      let out := otaChunkData env.hGen s.decipherIv s.ota (d.drop hlen)
      let s := {s with ota := out.st}
      let s :=
        match out.delivered with
        | none => s
        | some u => {s with dataToRemote := s.dataToRemote ++ [u]}
      .ok s (t0 ++ List.replicate out.failed Action.warn ++ [Action.resolve raddr])
    else
      let s :=
        if hlen < d.length then {s with dataToRemote := s.dataToRemote ++ [d.drop hlen]}
        else s
      .ok s (t0 ++ [Action.resolve raddr])

/-- The body of `_handle_stage_addr` from the shared `parse_header` call on
(source lines 334-396), given the data after the client-role preamble. -/
def stageAddrParsed (env : Env) (s : HandlerState) (d : List Nat) : HRes :=
  match parseHeader d with
  | none => .exn s []   -- raise Exception('can not parse header')
  | some (atyp, raddr, rport, hlen) =>
    if s.isLocal then stageAddrTail env s d atyp raddr rport hlen
    else
      let s := {s with otaEnableSession := atyp &&& ADDRTYPE_AUTH ≠ 0}
      if s.otaEnable ∧ ¬s.otaEnableSession then .ok s [Action.warn]
      else if s.otaEnableSession then
        if d.length < hlen + ONETIMEAUTH_BYTES then .ok s [Action.warn]
        else
          let hsh := (d.drop hlen).take ONETIMEAUTH_BYTES
          let hdr := d.take hlen
          if hsh = env.hGen (s.decipherIv ++ s.key) hdr then
            stageAddrTail env s d atyp raddr rport (hlen + ONETIMEAUTH_BYTES)
          else
            let (s', t') := destroy s
            .ok s' (Action.warn :: t')
      else stageAddrTail env s d atyp raddr rport hlen

/-- `TCPRelayHandler._handle_stage_addr` before its decorator
(source lines 302-396). -/
def handleStageAddrInner (env : Env) (s : HandlerState) (d0 : List Nat) : HRes :=
  if s.isLocal then
    if s.isTunnel then
      stageAddrParsed env s (addHeader s.tunnelRemote s.tunnelRemotePort d0)
    else
      if d0.length < 2 then .exn s []     -- data[1] raises IndexError
      else
        let cmd := (d0.drop 1).headD 0
        if cmd = CMD_UDP_ASSOCIATE then
          let header := if env.localFamilyV6 then [0x05, 0x00, 0x00, 0x04] else [0x05, 0x00, 0x00, 0x01]
          let reply := header ++ env.localBoundAddr ++ pack16 env.localBoundPort
          let (s1, t1, _) := writeToSock env s reply .local
          .ok {s1 with stage := Stage.udpAssoc} t1
        else if cmd = CMD_CONNECT then
          stageAddrParsed env s (d0.drop 3)
        else
          let (s', t') := destroy s
          .ok s' (Action.logError :: t')
  else stageAddrParsed env s d0

/-- `_handle_stage_addr` with its `exception_handle(destroy=True)`
decorator applied. -/
def handleStageAddr (env : Env) (s : HandlerState) (d : List Nat) :
    HandlerState × List Action :=
  guardDestroy (handleStageAddrInner env s d)

/-- `TCPRelayHandler._handle_stage_connecting` before its decorator
(source lines 254-299). -/
def handleStageConnectingInner (env : Env) (s : HandlerState) (d : List Nat) : HRes :=
  if ¬s.isLocal then
    if s.otaEnableSession then
      let out := otaChunkData env.hGen s.decipherIv s.ota d
      let s := {s with ota := out.st}
      let s :=
        match out.delivered with
        | none => s
        | some u => {s with dataToRemote := s.dataToRemote ++ [u]}
      .ok s (List.replicate out.failed Action.warn)
    else .ok {s with dataToRemote := s.dataToRemote ++ [d]} []
  else
    let (d1, s) :=
      if s.otaEnableSession then
        let (fr, ota') := otaChunkDataGen env.hGen s.cipherIv s.ota d
        (fr, {s with ota := ota'})
      else (d, s)
    let s := {s with dataToRemote := s.dataToRemote ++ [env.encrypt d1]}
    if s.cfgFastOpen ∧ ¬s.fastopenConnected then
      let s := {s with fastopenConnected := true}
      if ¬env.createRemoteOk then .exn s []  -- _create_remote_socket raised
      else
        let s := {s with remoteSock := true}
        let joined := s.dataToRemote.flatten
        match env.fastOpenSend joined with
        | .sent n =>
          let s :=
            if n < joined.length then {s with dataToRemote := [joined.drop n]}
            else {s with dataToRemote := []}
          let (s, t) := updateStream s .up WAIT_STATUS_READWRITING
          .ok s (Action.loopAdd .remote POLL_ERR :: t)
        | .inProgress =>
          let (s, t) := updateStream s .up WAIT_STATUS_READWRITING
          .ok s (Action.loopAdd .remote POLL_ERR :: t)
        | .notConn =>
          let s := {s with cfgFastOpen := false}
          let (s', t') := destroy s
          .ok s' (Action.loopAdd .remote POLL_ERR :: Action.logError :: t')
        | .errOther =>
          let (s', t') := destroy s
          .ok s' (Action.loopAdd .remote POLL_ERR :: Action.logError :: t')
    else .ok s []

/-- `_handle_stage_connecting` with its decorator applied. -/
def handleStageConnecting (env : Env) (s : HandlerState) (d : List Nat) :
    HandlerState × List Action :=
  guardDestroy (handleStageConnectingInner env s d)

/-! ## Socket event handlers -/

/-- The stage dispatch at the bottom of `_on_local_read`
(source lines 587-601). -/
def localReadDispatch (env : Env) (s : HandlerState) (d : List Nat) : HRes :=
  if s.stage = Stage.stream then
    let (s', t') := handleStageStream env s d
    .ok s' t'
  else if s.isLocal ∧ s.stage = Stage.init then
    if s.isTunnel then
      let (s', t') := handleStageAddr env s d
      .ok s' t'
    else
      let (s', t') := handleStageInit env s d
      .ok s' t'
  else if s.stage = Stage.connecting then
    let (s', t') := handleStageConnecting env s d
    .ok s' t'
  else if (s.isLocal ∧ s.stage = Stage.addr) ∨ (¬s.isLocal ∧ s.stage = Stage.init) then
    let (s', t') := handleStageAddr env s d
    .ok s' t'
  else .ok s []

/-- `TCPRelayHandler._on_local_read` (source lines 557-601).  In server
role a decrypt failure is caught, logged, and the read dropped. -/
def onLocalRead (env : Env) (s : HandlerState) : HRes :=
  if ¬s.localSock then .ok s []
  else
    match env.recvLocal with
    | .errTransient => .ok s []
    | .errFatal =>
      let (s', t') := destroy s   -- swallowed OSError leaves data = None
      .ok s' t'
    | .ok bs =>
      if bs = [] then
        let (s', t') := destroy s
        .ok s' t'
      else
        let s := updateActivity env s
        if ¬s.isLocal then
          match env.decrypt bs with
          | none => .ok s [Action.logError]
          | some d =>
            if d = [] then .ok s []
            else localReadDispatch env s d
        else localReadDispatch env s bs

/-- `TCPRelayHandler._on_remote_read` (source lines 603-632).  The client
role's decrypt is *not* protected: a failure there propagates as an
exception (`exn`). -/
def onRemoteRead (env : Env) (s : HandlerState) : HRes :=
  match env.recvRemote with
  | .errTransient => .ok s []
  | .errFatal =>
    let (s', t') := destroy s
    .ok s' t'
  | .ok bs =>
    if bs = [] then
      let (s', t') := destroy s
      .ok s' t'
    else
      let s := updateActivity env s
      if s.isLocal then
        match env.decrypt bs with
        | none => .exn s []
        | some d =>
          let (s', t', _) := writeToSock env s d .local
          .ok s' t'
      else
        let (s', t', _) := writeToSock env s (env.encrypt bs) .local
        .ok s' t'

/-- `TCPRelayHandler._on_local_write` (source lines 634-641). -/
def onLocalWrite (env : Env) (s : HandlerState) : HandlerState × List Action :=
  if s.dataToLocal ≠ [] then
    let data := s.dataToLocal.flatten
    let s := {s with dataToLocal := []}
    let (s', t', _) := writeToSock env s data .local
    (s', t')
  else updateStream s .down WAIT_STATUS_READING

/-- `TCPRelayHandler._on_remote_write` (source lines 643-651). -/
def onRemoteWrite (env : Env) (s : HandlerState) : HandlerState × List Action :=
  let s := {s with stage := Stage.stream}
  if s.dataToRemote ≠ [] then
    let data := s.dataToRemote.flatten
    let s := {s with dataToRemote := []}
    let (s', t', _) := writeToSock env s data .remote
    (s', t')
  else updateStream s .up WAIT_STATUS_READING

/-- `TCPRelayHandler._on_local_error` (source lines 653-659). -/
def onLocalError (s : HandlerState) : HandlerState × List Action :=
  let t0 := if s.localSock then [Action.logError] else []
  let (s', t') := destroy s
  (s', t0 ++ t')

/-- `TCPRelayHandler._on_remote_error` (source lines 661-667). -/
def onRemoteError (s : HandlerState) : HandlerState × List Action :=
  let t0 := if s.remoteSock then [Action.logError] else []
  let (s', t') := destroy s
  (s', t0 ++ t')

/-- `TCPRelayHandler.handle_event` before its decorator
(source lines 670-699): the DESTROYED short-circuit, then per-socket
dispatch in error → read → write order with a stage re-check after each
step that can destroy. -/
def handleEventInner (env : Env) (s : HandlerState) (tgt : Tgt) (ev : Nat) : HRes :=
  if s.stage = Stage.destroyed then .ok s []
  else if tgt = Tgt.remote ∧ s.remoteSock then
    let (s1, t1) := if ev &&& POLL_ERR ≠ 0 then onRemoteError s else (s, [])
    if s1.stage = Stage.destroyed then .ok s1 t1
    else
      let r2 := if ev &&& (POLL_IN ||| POLL_HUP) ≠ 0 then onRemoteRead env s1 else .ok s1 []
      match r2 with
      | .exn s2 t2 => .exn s2 (t1 ++ t2)
      | .ok s2 t2 =>
        if s2.stage = Stage.destroyed then .ok s2 (t1 ++ t2)
        else if ev &&& POLL_OUT ≠ 0 then
          let (s3, t3) := onRemoteWrite env s2
          .ok s3 (t1 ++ t2 ++ t3)
        else .ok s2 (t1 ++ t2)
  else if tgt = Tgt.local ∧ s.localSock then
    let (s1, t1) := if ev &&& POLL_ERR ≠ 0 then onLocalError s else (s, [])
    if s1.stage = Stage.destroyed then .ok s1 t1
    else
      let r2 := if ev &&& (POLL_IN ||| POLL_HUP) ≠ 0 then onLocalRead env s1 else .ok s1 []
      match r2 with
      | .exn s2 t2 => .exn s2 (t1 ++ t2)
      | .ok s2 t2 =>
        if s2.stage = Stage.destroyed then .ok s2 (t1 ++ t2)
        else if ev &&& POLL_OUT ≠ 0 then
          let (s3, t3) := onLocalWrite env s2
          .ok s3 (t1 ++ t2 ++ t3)
        else .ok s2 (t1 ++ t2)
  else .ok s [Action.warn]

/-- `handle_event` with its `exception_handle(self_=True, destroy=True)`
decorator: no exception escapes; a propagating one destroys the handler. -/
def handleEvent (env : Env) (s : HandlerState) (tgt : Tgt) (ev : Nat) :
    HandlerState × List Action :=
  guardDestroy (handleEventInner env s tgt ev)

/-! ## Construction -/

/-- The configuration keys the handler constructor reads.  `Option` fields
correspond to `config.get(...)` look-ups that may be absent. -/
structure Config where
  tunnelRemote : Option String
  tunnelRemotePort : Option Nat
  tunnelPort : Option Nat
  oneTimeAuth : Option Bool
  fastOpen : Bool
  server : String
  serverPort : Nat
deriving DecidableEq, Repr

/-- `TCPRelayHandler.__init__` (source lines 112-155) as it initialises
the handler state; the cryptor's IVs/key and the clock are passed in. -/
def initHandler (cfg : Config) (isLocal isTunnel : Bool)
    (cipherIv decipherIv key : List Nat) (now : Int) :
    HandlerState × List Action :=
  let otaEnable := cfg.oneTimeAuth.getD false
  let s : HandlerState :=
    { isLocal := isLocal
      isTunnel := isTunnel
      stage := Stage.init
      localSock := true
      remoteSock := false
      upstreamStatus := WAIT_STATUS_READING
      downstreamStatus := WAIT_STATUS_INIT
      dataToLocal := []
      dataToRemote := []
      otaEnable := otaEnable
      otaEnableSession := otaEnable
      ota := ⟨[], [], 0, 0⟩
      fastopenConnected := false
      cfgFastOpen := cfg.fastOpen
      lastActivity := 0
      tunnelRemote := cfg.tunnelRemote.getD "8.8.8.8"
      tunnelRemotePort := cfg.tunnelRemotePort.getD 53
      tunnelPort := cfg.tunnelPort.getD 53
      cipherIv := cipherIv
      decipherIv := decipherIv
      key := key
      chosenServer := (cfg.server, cfg.serverPort)
      remoteAddress := none }
  let s := updateActivity { recvLocal := .errTransient, recvRemote := .errTransient,
                            send := fun _ _ => .errTransient, decrypt := fun _ => none,
                            encrypt := id, hGen := fun _ _ => [], now := now,
                            createRemoteOk := false, fastOpenSend := fun _ => .errOther,
                            localFamilyV6 := false, localBoundAddr := [], localBoundPort := 0 } s
  (s, [Action.loopAdd .local (POLL_IN ||| POLL_ERR)])

/-! ## Timeout sweeper (`TCPRelay._sweep_timeout`) -/

/-- The sweeper's view of a handler in the timeout queue: an identity and
its `last_activity` stamp. -/
structure TEntry where
  hid : Nat
  lastActivity : Int
deriving DecidableEq, Repr

/-- The `while pos < length` loop of `_sweep_timeout`
(source lines 824-839), applied to the queue suffix starting at the
current offset.  Returns the rewritten suffix, the handlers destroyed (in
order), and how many slots the cursor advanced. -/
def sweepFrom (now timeout : Int) :
    List (Option TEntry) → List (Option TEntry) × List TEntry × Nat
  | [] => ([], [], 0)
  | none :: rest =>
    let (l, ds, k) := sweepFrom now timeout rest
    (none :: l, ds, k + 1)
  | some h :: rest =>
    if now - h.lastActivity < timeout then (some h :: rest, [], 0)
    else
      let (l, ds, k) := sweepFrom now timeout rest
      (none :: l, h :: ds, k + 1)

/-- The sweeper-relevant fields of `TCPRelay`: the tombstoned queue and the
scan offset.  (The handler→index map, which the compaction step also
rewrites, is not needed by any claim and is left out of the model.) -/
structure SweepState where
  timeouts : List (Option TEntry)
  timeoutOffset : Nat
deriving DecidableEq, Repr

/-- `TCPRelay._sweep_timeout` (source lines 815-847): walk from the offset
destroying every stale live entry until the first fresh one, then compact
the queue when the offset passed `TIMEOUTS_CLEAN_SIZE` and half the queue. -/
def sweepTimeout (now timeout : Int) (r : SweepState) : SweepState × List TEntry :=
  if r.timeouts = [] then (r, [])
  else
    let length := r.timeouts.length
    let (suf, ds, k) := sweepFrom now timeout (r.timeouts.drop r.timeoutOffset)
    let ts := r.timeouts.take r.timeoutOffset ++ suf
    let pos := r.timeoutOffset + k
    if pos > TIMEOUTS_CLEAN_SIZE ∧ pos > length / 2 then
      ({timeouts := ts.drop pos, timeoutOffset := 0}, ds)
    else
      ({timeouts := ts, timeoutOffset := pos}, ds)

/-! ## Concrete fixtures used to instantiate the theorems -/

/-- A benign environment: sends always accepted in full, identity cipher,
constant MAC. -/
def envDefault : Env :=
  { recvLocal := .ok []
    recvRemote := .ok []
    send := fun _ d => .ok d.length
    decrypt := fun d => some d
    encrypt := id
    hGen := fun _ _ => List.replicate 10 0
    now := 100
    createRemoteOk := true
    fastOpenSend := fun d => .sent d.length
    localFamilyV6 := false
    localBoundAddr := [127, 0, 0, 1]
    localBoundPort := 1080 }

/-- An environment whose cryptor raises on every `decrypt`. -/
def envDecryptFail : Env :=
  { envDefault with decrypt := fun _ => none, recvLocal := .ok [2], recvRemote := .ok [1] }

def cfgDefault : Config :=
  ⟨none, none, none, none, false, "example.com", 8388⟩

def cfgServerOta : Config :=
  ⟨none, none, none, some true, false, "0.0.0.0", 8388⟩

/-- A freshly-constructed client-role handler. -/
def sClientInit : HandlerState := (initHandler cfgDefault true false [] [] [] 0).1

/-- A freshly-constructed server-role handler with `one_time_auth` on. -/
def sServerInitOta : HandlerState := (initHandler cfgServerOta false false [] [] [] 0).1

/-- A client-role handler piping in STREAM. -/
def sClientStream : HandlerState :=
  {sClientInit with stage := Stage.stream, remoteSock := true}

/-- A server-role handler piping in STREAM with OTA on. -/
def sServerStream : HandlerState :=
  {sServerInitOta with stage := Stage.stream, remoteSock := true}

/-- A handler after `destroy()` ran. -/
def sDestroyedState : HandlerState :=
  {sClientInit with stage := Stage.destroyed, localSock := false}

/-! ## Supporting lemmas -/

theorem otaLoop_nil (hG : List Nat → List Nat → List Nat) (dIv : List Nat)
    (fuel : Nat) (st : OtaState) (un : List Nat) (v f : Nat) :
    otaLoop hG dIv fuel st [] un v f = ⟨st, some un, v, f⟩ := by
  cases fuel <;> simp [otaLoop]

theorem unpack16_pack16 (n : Nat) (h : n < 65536) : unpack16 (pack16 n) = n := by
  simp only [unpack16, pack16, List.headD, List.drop]
  omega

/-- `otaPayload` advances the chunk index exactly when it verifies a chunk. -/
theorem otaPayload_idx (hG : List Nat → List Nat → List Nat) (dIv : List Nat)
    (st : OtaState) (data un : List Nat) (v f : Nat) :
    (otaPayload hG dIv st data un v f).1.chunkIdx + v =
      st.chunkIdx + (otaPayload hG dIv st data un v f).2.2.2.1 := by
  simp only [otaPayload]
  split_ifs <;> simp <;> omega

/-- Across the whole loop, the chunk index advances by the number of
verified chunks. -/
theorem otaLoop_idx (hG : List Nat → List Nat → List Nat) (dIv : List Nat)
    (fuel : Nat) (st : OtaState) (data un : List Nat) (v f : Nat) :
    (otaLoop hG dIv fuel st data un v f).st.chunkIdx + v =
      st.chunkIdx + (otaLoop hG dIv fuel st data un v f).verified := by
  induction fuel, st, data, un, v, f using otaLoop.induct hG dIv with
  | case1 st x un v f => simp [otaLoop]
  | case2 fuel st un v f => simp [otaLoop]
  | case3 fuel st data un v f hd hlen tk hd1 hinc =>
    unfold_let tk hd1 at hinc
    simp only [otaLoop, if_neg hd, if_pos hlen, if_pos hinc]
  | case4 fuel st data un v f hd hlen tk hd1 dd1 hninc st1 st2 data2 un2 v2 f2 hpay ih =>
    unfold_let tk hd1 dd1 st1 at hpay hninc
    have hp := otaPayload_idx hG dIv
      { buffHead := st.buffHead ++ List.take (ONETIMEAUTH_CHUNK_BYTES - st.buffHead.length) data,
        buffData := st.buffData,
        otaLen := unpack16 (List.take ONETIMEAUTH_CHUNK_DATA_LEN
          (st.buffHead ++ List.take (ONETIMEAUTH_CHUNK_BYTES - st.buffHead.length) data)),
        chunkIdx := st.chunkIdx }
      (List.drop (ONETIMEAUTH_CHUNK_BYTES - st.buffHead.length) data) un v f
    rw [hpay] at hp
    simp only [] at hp
    simp only [otaLoop, if_neg hd, if_pos hlen, if_neg hninc, hpay]
    omega
  | case5 fuel st data un v f hd hlen st2 data2 un2 v2 f2 hpay ih =>
    have hp := otaPayload_idx hG dIv st data un v f
    rw [hpay] at hp
    simp only [] at hp
    simp only [otaLoop, if_neg hd, if_neg hlen, hpay]
    omega

theorem destroy_stage (s : HandlerState) : (destroy s).1.stage = Stage.destroyed := by
  unfold destroy
  split
  · simp_all
  · by_cases h1 : s.remoteSock <;> by_cases h2 : s.localSock <;> simp [h1, h2]

/-- `destroy` never attempts a socket send. -/
theorem destroy_noSend (s : HandlerState) (tg : Tgt) (da : List Nat) :
    Action.send tg da ∉ (destroy s).2 := by
  unfold destroy
  split
  · simp
  · by_cases h1 : s.remoteSock <;> by_cases h2 : s.localSock <;> simp [h1, h2]

theorem updateStream_stage (s : HandlerState) (d : StreamDir) (st : Nat) :
    (updateStream s d st).1.stage = s.stage := by
  rcases d <;> simp only [updateStream] <;> split_ifs <;>
    simp_all <;> split_ifs <;> simp_all

/-- A send that does not hit a fatal error never changes the stage. -/
theorem writeToSock_stage (env : Env) (s : HandlerState) (data : List Nat) (tgt : Tgt)
    (h : env.send tgt data ≠ SendRes.errFatal) :
    (writeToSock env s data tgt).1.stage = s.stage := by
  rcases tgt
  · simp only [writeToSock]
    split
    · simp
    · rcases hsend : env.send Tgt.local data with n | _ | _
      · simp only [hsend]
        split <;> simp [updateStream_stage]
      · simp only [hsend]
        simp [updateStream_stage]
      · exact absurd hsend h
  · simp only [writeToSock]
    split
    · simp
    · rcases hsend : env.send Tgt.remote data with n | _ | _
      · simp only [hsend]
        split <;> simp [updateStream_stage]
      · simp only [hsend]
        simp [updateStream_stage]
      · exact absurd hsend h

/-- The sweep loop advances at most over the suffix it scans. -/
theorem sweepFrom_adv_le (now timeout : Int) (l : List (Option TEntry)) :
    (sweepFrom now timeout l).2.2 ≤ l.length := by
  induction l with
  | nil => simp [sweepFrom]
  | cons a rest ih =>
    rcases a with _ | h
    · rcases hrec : sweepFrom now timeout rest with ⟨l', ds, k⟩
      rw [hrec] at ih
      simp only [sweepFrom, hrec]
      simpa using ih
    · simp only [sweepFrom]
      split
      · simp
      · rcases hrec : sweepFrom now timeout rest with ⟨l', ds, k⟩
        rw [hrec] at ih
        simpa using ih

/-- Computation: a single whole chunk whose MAC fails to verify resets the
reassembler, leaves the chunk index alone, and delivers nothing. -/
theorem otaChunkData_bad_single (hG : List Nat → List Nat → List Nat)
    (dIv hash payload : List Nat) (i : Nat)
    (hlen : hash.length = 10) (hsz : payload.length < 65536)
    (hbad : hash ≠ hG (dIv ++ pack32 i) payload) :
    otaChunkData hG dIv ⟨[], [], 0, i⟩ (pack16 payload.length ++ (hash ++ payload)) =
      ⟨⟨[], [], 0, i⟩, some [], 0, 1⟩ := by
  have hC : ONETIMEAUTH_CHUNK_BYTES = 12 := rfl
  have hD : ONETIMEAUTH_CHUNK_DATA_LEN = 2 := rfl
  have hne : pack16 payload.length ++ (hash ++ payload) ≠ [] := by simp [pack16]
  have hhd : (pack16 payload.length ++ hash).length = 12 := by simp [pack16, hlen]
  have hF1 : List.take 12 (pack16 payload.length ++ (hash ++ payload)) =
      pack16 payload.length ++ hash := by
    rw [← List.append_assoc]; exact List.take_left' hhd
  have hF2 : List.drop 12 (pack16 payload.length ++ (hash ++ payload)) = payload := by
    rw [← List.append_assoc]; exact List.drop_left' hhd
  have hF3 : List.take 2 (pack16 payload.length ++ hash) = pack16 payload.length :=
    List.take_left' (by simp [pack16])
  have hF4 : List.drop 2 (pack16 payload.length ++ hash) = hash :=
    List.drop_left' (by simp [pack16])
  have hpayl : otaPayload hG dIv ⟨pack16 payload.length ++ hash, [], payload.length, i⟩
      payload [] 0 0 = (⟨[], [], 0, i⟩, [], [], 0, 1) := by
    simp only [otaPayload, hD, List.length_nil, Nat.sub_zero, Nat.min_self,
      List.nil_append, List.take_length, List.drop_length, hF4]
    rw [if_pos trivial, if_neg hbad]
  rw [otaChunkData, otaLoop, if_neg hne,
    if_pos (show (⟨[], [], 0, i⟩ : OtaState).otaLen = 0 from rfl)]
  simp only [hC, hD, List.length_nil, Nat.sub_zero, List.nil_append, hF1, hF2, hhd,
    hF3, unpack16_pack16 payload.length hsz]
  rw [if_neg (lt_irrefl 12)]
  simp only [hpayl]
  exact otaLoop_nil hG dIv _ _ _ _ _

/-! ## Claim theorems -/

/-- C1: once a handler's stage is DESTROYED the state is terminal — any
further `handle_event` call on either socket returns the state untouched
with no side effects, and a second `destroy()` is a side-effect-free
no-op. -/
theorem destroyed_stage_is_terminal (env : Env) (s : HandlerState) (tgt : Tgt) (ev : Nat)
    (h : s.stage = Stage.destroyed) :
    handleEvent env s tgt ev = (s, []) ∧ destroy s = (s, []) := by
  constructor
  · simp [handleEvent, handleEventInner, guardDestroy, h]
  · simp [destroy, h]

theorem destroyed_stage_is_terminal_witness :
    handleEvent envDefault sDestroyedState .local POLL_IN = (sDestroyedState, []) ∧
      destroy sDestroyedState = (sDestroyedState, []) :=
  destroyed_stage_is_terminal envDefault sDestroyedState .local POLL_IN (by rfl)

/-- C2 (failing evaluation): splitting the framed stream of payloads
`[0x41]`, `[0x42]` after byte 14 — one byte into the second chunk's
header — makes `_ota_chunk_data` drop the already-verified first payload:
the first call returns without invoking the data callback (so `[0x41]` is
discarded with the local `unchunk_data`), and the two calls together
deliver only `[0x42]` instead of `[0x41, 0x42]`. -/
theorem ota_split_read_drops_verified_payload :
    (otaChunkData (fun _ _ => List.replicate 10 0) []
        ⟨[], [], 0, 0⟩
        (((otaChunkDataGen (fun _ _ => List.replicate 10 0) [] ⟨[], [], 0, 0⟩ [0x41]).1 ++
          (otaChunkDataGen (fun _ _ => List.replicate 10 0) []
            ⟨[], [], 0, 1⟩ [0x42]).1).take 14)).delivered = none ∧
    (otaChunkData (fun _ _ => List.replicate 10 0) []
        (otaChunkData (fun _ _ => List.replicate 10 0) []
          ⟨[], [], 0, 0⟩
          (((otaChunkDataGen (fun _ _ => List.replicate 10 0) [] ⟨[], [], 0, 0⟩ [0x41]).1 ++
            (otaChunkDataGen (fun _ _ => List.replicate 10 0) []
              ⟨[], [], 0, 1⟩ [0x42]).1).take 14)).st
        (((otaChunkDataGen (fun _ _ => List.replicate 10 0) [] ⟨[], [], 0, 0⟩ [0x41]).1 ++
          (otaChunkDataGen (fun _ _ => List.replicate 10 0) []
            ⟨[], [], 0, 1⟩ [0x42]).1).drop 14)).delivered = some [0x42] := by
  decide

/-- C3 (counterexample): a sweep at exactly `timeout` seconds of idleness
(`now = 10`, `last_activity = 0`, `timeout = 10`) DOES destroy the
handler and tombstone its slot, contrary to the claim. -/
theorem sweep_exact_timeout_destroys :
    sweepTimeout 10 10 ⟨[some ⟨1, 0⟩], 0⟩ = (⟨[none], 1⟩, [⟨1, 0⟩]) := by
  decide

/-- C3 (amended): the sweep destroys and tombstones a live entry iff its
idle time is `≥ timeout` (so at exactly `timeout` it IS destroyed), and it
stops at the first entry with idle time `< timeout`, leaving the queue
unchanged from there regardless of what follows. -/
theorem sweep_destroy_boundary (now timeout : Int) (e : TEntry)
    (rest : List (Option TEntry))
    (hsz : rest.length + 1 ≤ TIMEOUTS_CLEAN_SIZE) :
    (now - e.lastActivity < timeout →
      sweepTimeout now timeout ⟨some e :: rest, 0⟩ = (⟨some e :: rest, 0⟩, [])) ∧
    (timeout ≤ now - e.lastActivity →
      (sweepTimeout now timeout ⟨some e :: rest, 0⟩).1.timeouts.head? = some none ∧
      e ∈ (sweepTimeout now timeout ⟨some e :: rest, 0⟩).2 ∧
      1 ≤ (sweepTimeout now timeout ⟨some e :: rest, 0⟩).1.timeoutOffset) := by
  constructor
  · intro hfresh
    simp [sweepTimeout, sweepFrom, hfresh, TIMEOUTS_CLEAN_SIZE]
  · intro hstale
    have hnlt : ¬(now - e.lastActivity < timeout) := not_lt.mpr hstale
    rcases hrec : sweepFrom now timeout rest with ⟨l, ds, k⟩
    have hk := sweepFrom_adv_le now timeout rest
    rw [hrec] at hk
    simp only [] at hk
    simp only [sweepTimeout, sweepFrom, if_neg hnlt, hrec]
    have hiff : ¬(TIMEOUTS_CLEAN_SIZE < k + 1 ∧ (rest.length + 1) / 2 < k + 1) := by
      simp only [TIMEOUTS_CLEAN_SIZE] at hsz ⊢
      omega
    simp [hiff]

theorem sweep_destroy_boundary_witness :
    (sweepTimeout 20 10 ⟨[some ⟨1, 5⟩, some ⟨2, 0⟩], 0⟩).1.timeouts.head? = some none ∧
    (⟨1, 5⟩ : TEntry) ∈ (sweepTimeout 20 10 ⟨[some ⟨1, 5⟩, some ⟨2, 0⟩], 0⟩).2 ∧
    1 ≤ (sweepTimeout 20 10 ⟨[some ⟨1, 5⟩, some ⟨2, 0⟩], 0⟩).1.timeoutOffset :=
  (sweep_destroy_boundary 20 10 ⟨1, 5⟩ [some ⟨2, 0⟩] (by decide)).2 (by decide)

/-- C10: a handler constructed in tunnel mode with the `tunnel_remote`,
`tunnel_remote_port` and `tunnel_port` keys absent defaults to
`8.8.8.8` / 53 / 53 instead of being rejected. -/
theorem tunnel_mode_defaults (cfg : Config) (isLocal : Bool)
    (cIv dIv key : List Nat) (now : Int)
    (h1 : cfg.tunnelRemote = none) (h2 : cfg.tunnelRemotePort = none)
    (h3 : cfg.tunnelPort = none) :
    (initHandler cfg isLocal true cIv dIv key now).1.tunnelRemote = "8.8.8.8" ∧
    (initHandler cfg isLocal true cIv dIv key now).1.tunnelRemotePort = 53 ∧
    (initHandler cfg isLocal true cIv dIv key now).1.tunnelPort = 53 := by
  simp only [initHandler, updateActivity]
  split_ifs <;> simp [h1, h2, h3]

theorem tunnel_mode_defaults_witness :
    (initHandler ⟨none, none, none, none, false, "example.com", 8388⟩
        true true [] [] [] 0).1.tunnelRemote = "8.8.8.8" ∧
    (initHandler ⟨none, none, none, none, false, "example.com", 8388⟩
        true true [] [] [] 0).1.tunnelRemotePort = 53 ∧
    (initHandler ⟨none, none, none, none, false, "example.com", 8388⟩
        true true [] [] [] 0).1.tunnelPort = 53 :=
  tunnel_mode_defaults _ true [] [] [] 0 rfl rfl rfl


/-- C4: a per-chunk MAC failure in the inbound reassembler delivers nothing
to the callback, resets the head/data buffers and expected length, warns
(failed = 1) and does not advance the chunk index; moreover the inbound
index always advances by exactly the number of verified chunks, the
outbound index by one per framed chunk, both starting from 0 at
construction, and the failure does not destroy the handler (the stage
stays STREAM when sends do not hit fatal errors). -/
theorem ota_chunk_mac_failure_behaviour
    (hG : List Nat → List Nat → List Nat) (dIv hash payload : List Nat) (i : Nat)
    (hlen : hash.length = 10) (hsz : payload.length < 65536)
    (hbad : hash ≠ hG (dIv ++ pack32 i) payload) :
    otaChunkData hG dIv ⟨[], [], 0, i⟩ (pack16 payload.length ++ (hash ++ payload)) =
      ⟨⟨[], [], 0, i⟩, some [], 0, 1⟩ ∧
    (∀ (hg : List Nat → List Nat → List Nat) (div : List Nat) (st : OtaState) (data : List Nat),
      (otaChunkData hg div st data).st.chunkIdx =
        st.chunkIdx + (otaChunkData hg div st data).verified) ∧
    (∀ (hg : List Nat → List Nat → List Nat) (civ : List Nat) (st : OtaState) (data : List Nat),
      (otaChunkDataGen hg civ st data).2.chunkIdx = st.chunkIdx + 1) ∧
    (∀ (cfg : Config) (il it : Bool) (civ div k : List Nat) (now : Int),
      (initHandler cfg il it civ div k now).1.ota = ⟨[], [], 0, 0⟩) ∧
    (∀ (env : Env) (s : HandlerState) (bs : List Nat),
      s.isLocal = false → s.stage = Stage.stream → s.otaEnableSession = true →
      (∀ d2, env.send Tgt.remote d2 ≠ SendRes.errFatal) →
      (handleStageStream env s bs).1.stage = Stage.stream) := by
  refine ⟨otaChunkData_bad_single hG dIv hash payload i hlen hsz hbad, ?_, ?_, ?_, ?_⟩
  · intro hg div st data
    have h := otaLoop_idx hg div (data.length + 1) st data [] 0 0
    simpa [otaChunkData] using h
  · intro hg civ st data
    simp [otaChunkDataGen]
  · intro cfg il it civ div k now
    simp only [initHandler, updateActivity]
    split_ifs <;> simp
  · intro env s bs h1 h2 h3 hsend
    simp only [handleStageStream, h1, h3]
    simp only [Bool.false_eq_true, if_false, if_true]
    cases hdel : (otaChunkData env.hGen s.decipherIv s.ota bs).delivered with
    | none => simp [hdel, h2]
    | some u =>
      simp only [hdel]
      rw [writeToSock_stage _ _ _ _ (hsend _)]
      simpa using h2

theorem ota_chunk_mac_failure_behaviour_witness :
    otaChunkData (fun _ _ => List.replicate 10 0) [] ⟨[], [], 0, 5⟩
        (pack16 1 ++ (List.replicate 10 1 ++ [0x41])) =
      ⟨⟨[], [], 0, 5⟩, some [], 0, 1⟩ :=
  (ota_chunk_mac_failure_behaviour (fun _ _ => List.replicate 10 0) []
    (List.replicate 10 1) [0x41] 5 (by decide) (by decide) (by decide)).1


theorem updateActivity_fields (env : Env) (s : HandlerState) :
    (updateActivity env s).isLocal = s.isLocal ∧
    (updateActivity env s).isTunnel = s.isTunnel ∧
    (updateActivity env s).stage = s.stage ∧
    (updateActivity env s).localSock = s.localSock ∧
    (updateActivity env s).remoteSock = s.remoteSock ∧
    (updateActivity env s).otaEnable = s.otaEnable ∧
    (updateActivity env s).otaEnableSession = s.otaEnableSession ∧
    (updateActivity env s).dataToRemote = s.dataToRemote ∧
    (updateActivity env s).dataToLocal = s.dataToLocal ∧
    (updateActivity env s).ota = s.ota := by
  unfold updateActivity
  split_ifs <;> simp

/-- A write of non-empty data to a live socket always records the send
attempt. -/
theorem writeToSock_send_mem (env : Env) (s : HandlerState) (data : List Nat) (tgt : Tgt)
    (hne : data ≠ [])
    (hlive : (match tgt with | Tgt.local => s.localSock | Tgt.remote => s.remoteSock) = true) :
    Action.send tgt data ∈ (writeToSock env s data tgt).2.1 := by
  rcases tgt <;>
    simp only [writeToSock] <;>
    rw [if_neg (by simp_all)] <;>
    rcases env.send _ data with n | _ | _ <;>
    simp only [] <;>
    first
      | simp
      | (split <;> simp)

/-- Under the local-read dispatch conditions for a client in INIT, one
`handle_event` on POLL_IN is exactly `_handle_stage_init` on the received
bytes (after the activity refresh). -/
theorem handleEvent_init_dispatch (env : Env) (s : HandlerState) (d : List Nat)
    (hrole : s.isLocal = true) (htun : s.isTunnel = false)
    (hstage : s.stage = Stage.init) (hsock : s.localSock = true)
    (hrecv : env.recvLocal = RecvRes.ok d) (hne : d ≠ []) :
    handleEvent env s Tgt.local POLL_IN =
      handleStageInit env (updateActivity env s) d := by
  have hfields := updateActivity_fields env s
  obtain ⟨f1, f2, f3, f4, f5, f6, f7, f8, f9, f10⟩ := hfields
  simp [handleEvent, handleEventInner, guardDestroy, onLocalRead, localReadDispatch,
    hrecv, hrole, hstage, htun, hsock, hne, POLL_IN, POLL_ERR, POLL_HUP, POLL_OUT,
    f1, f2, f3, f4]


/-- A zero-byte read on the local socket destroys the handler. -/
theorem handleEvent_local_eof (env : Env) (s : HandlerState)
    (hstage : s.stage ≠ Stage.destroyed) (hsock : s.localSock = true)
    (hrecv : env.recvLocal = RecvRes.ok []) :
    handleEvent env s Tgt.local POLL_IN = destroy s := by
  simp [handleEvent, handleEventInner, guardDestroy, onLocalRead, hrecv, hstage, hsock,
    POLL_IN, POLL_ERR, POLL_HUP, POLL_OUT]

/-- A transient local-read error is a no-op. -/
theorem handleEvent_local_transient (env : Env) (s : HandlerState)
    (hstage : s.stage ≠ Stage.destroyed) (hsock : s.localSock = true)
    (hrecv : env.recvLocal = RecvRes.errTransient) :
    handleEvent env s Tgt.local POLL_IN = (s, []) := by
  simp [handleEvent, handleEventInner, guardDestroy, onLocalRead, hrecv, hstage, hsock,
    POLL_IN, POLL_ERR, POLL_HUP, POLL_OUT]

/-- A zero-byte read on the remote socket destroys the handler. -/
theorem handleEvent_remote_eof (env : Env) (s : HandlerState)
    (hstage : s.stage ≠ Stage.destroyed) (hsock : s.remoteSock = true)
    (hrecv : env.recvRemote = RecvRes.ok []) :
    handleEvent env s Tgt.remote POLL_IN = destroy s := by
  simp [handleEvent, handleEventInner, guardDestroy, onRemoteRead, hrecv, hstage, hsock,
    POLL_IN, POLL_ERR, POLL_HUP, POLL_OUT]

/-- A transient remote-read error is a no-op. -/
theorem handleEvent_remote_transient (env : Env) (s : HandlerState)
    (hstage : s.stage ≠ Stage.destroyed) (hsock : s.remoteSock = true)
    (hrecv : env.recvRemote = RecvRes.errTransient) :
    handleEvent env s Tgt.remote POLL_IN = (s, []) := by
  simp [handleEvent, handleEventInner, guardDestroy, onRemoteRead, hrecv, hstage, hsock,
    POLL_IN, POLL_ERR, POLL_HUP, POLL_OUT]

theorem checkAuthMethod_accepted (d : List Nat)
    (h1 : 3 ≤ d.length) (h2 : d.headD 0 = 5) (h3 : 1 ≤ (d.drop 1).headD 0)
    (h4 : d.length = (d.drop 1).headD 0 + 2) (h5 : 0 ∈ d.drop 2) :
    checkAuthMethod d = AuthRes.accepted := by
  simp only [checkAuthMethod, METHOD_NOAUTH]
  rw [if_neg (by omega), if_neg (not_ne_iff.mpr h2), if_neg (by omega), if_pos h5]

theorem checkAuthMethod_bad (d : List Nat)
    (h : d.length < 3 ∨ d.headD 0 ≠ 5 ∨ (d.drop 1).headD 0 < 1 ∨
      d.length ≠ (d.drop 1).headD 0 + 2) :
    checkAuthMethod d = AuthRes.badHeader := by
  simp only [checkAuthMethod, METHOD_NOAUTH]
  by_cases h1 : d.length < 3
  · rw [if_pos h1]
  · rw [if_neg h1]
    by_cases h2 : d.headD 0 ≠ 5
    · rw [if_pos h2]
    · rw [if_neg h2]
      have hrest : (d.drop 1).headD 0 < 1 ∨ d.length ≠ (d.drop 1).headD 0 + 2 := by
        rcases h with h | h | h | h
        · exact absurd h h1
        · exact absurd h h2
        · exact Or.inl h
        · exact Or.inr h
      rw [if_pos hrest]

theorem checkAuthMethod_noacc (d : List Nat)
    (h1 : 3 ≤ d.length) (h2 : d.headD 0 = 5) (h3 : 1 ≤ (d.drop 1).headD 0)
    (h4 : d.length = (d.drop 1).headD 0 + 2) (h5 : 0 ∉ d.drop 2) :
    checkAuthMethod d = AuthRes.noAcceptableMethods := by
  simp only [checkAuthMethod, METHOD_NOAUTH]
  rw [if_neg (by omega), if_neg (not_ne_iff.mpr h2), if_neg (by omega), if_neg h5]

/-- C6: SOCKS5 method selection on the client's first bytes — a
well-formed header (version 5, `nmethods ≥ 1`, body length `nmethods + 2`)
offering the no-auth method gets the `05 00` reply and moves the handler
to ADDR; a malformed header destroys the handler without any reply; a
well-formed header without the no-auth method gets `05 FF` and is then
destroyed. -/
theorem socks5_method_selection (env : Env) (s : HandlerState) (d : List Nat)
    (hrole : s.isLocal = true) (htun : s.isTunnel = false)
    (hstage : s.stage = Stage.init) (hsock : s.localSock = true)
    (hrecv : env.recvLocal = RecvRes.ok d) :
    ((3 ≤ d.length ∧ d.headD 0 = 5 ∧ 1 ≤ (d.drop 1).headD 0 ∧
        d.length = (d.drop 1).headD 0 + 2 ∧ 0 ∈ d.drop 2) →
      Action.send Tgt.local [0x05, 0x00] ∈ (handleEvent env s Tgt.local POLL_IN).2 ∧
        (handleEvent env s Tgt.local POLL_IN).1.stage = Stage.addr) ∧
    ((d.length < 3 ∨ d.headD 0 ≠ 5 ∨ (d.drop 1).headD 0 < 1 ∨
        d.length ≠ (d.drop 1).headD 0 + 2) →
      (handleEvent env s Tgt.local POLL_IN).1.stage = Stage.destroyed ∧
        (∀ tg da, Action.send tg da ∉ (handleEvent env s Tgt.local POLL_IN).2)) ∧
    ((3 ≤ d.length ∧ d.headD 0 = 5 ∧ 1 ≤ (d.drop 1).headD 0 ∧
        d.length = (d.drop 1).headD 0 + 2 ∧ 0 ∉ d.drop 2) →
      Action.send Tgt.local [0x05, 0xff] ∈ (handleEvent env s Tgt.local POLL_IN).2 ∧
        (handleEvent env s Tgt.local POLL_IN).1.stage = Stage.destroyed) := by
  have hnd : s.stage ≠ Stage.destroyed := by rw [hstage]; simp
  have hua := updateActivity_fields env s
  refine ⟨?_, ?_, ?_⟩
  · rintro ⟨h1, h2, h3, h4, h5⟩
    have hne : d ≠ [] := by
      intro hd
      subst hd
      simp at h1
    rw [handleEvent_init_dispatch env s d hrole htun hstage hsock hrecv hne]
    rcases hw : writeToSock env (updateActivity env s) [0x05, 0x00] Tgt.local with ⟨s1, t1, b⟩
    simp only [handleStageInit, checkAuthMethod_accepted d h1 h2 h3 h4 h5, hw]
    have hm := writeToSock_send_mem env (updateActivity env s) [0x05, 0x00] Tgt.local
      (by simp) (by simpa using hua.2.2.2.1.trans hsock)
    rw [hw] at hm
    exact ⟨hm, by simp⟩
  · intro h
    by_cases hd : d = []
    · subst hd
      rw [handleEvent_local_eof env s hnd hsock hrecv]
      exact ⟨destroy_stage s, fun tg da => destroy_noSend s tg da⟩
    · rw [handleEvent_init_dispatch env s d hrole htun hstage hsock hrecv hd]
      simp only [handleStageInit, checkAuthMethod_bad d h]
      exact ⟨destroy_stage _, fun tg da => destroy_noSend _ tg da⟩
  · rintro ⟨h1, h2, h3, h4, h5⟩
    have hne : d ≠ [] := by
      intro hd
      subst hd
      simp at h1
    rw [handleEvent_init_dispatch env s d hrole htun hstage hsock hrecv hne]
    rcases hw : writeToSock env (updateActivity env s) [0x05, 0xff] Tgt.local with ⟨s1, t1, b⟩
    simp only [handleStageInit, checkAuthMethod_noacc d h1 h2 h3 h4 h5, hw]
    rcases hd2 : destroy s1 with ⟨s2, t2⟩
    simp only [hd2]
    constructor
    · have hm := writeToSock_send_mem env (updateActivity env s) [0x05, 0xff] Tgt.local
        (by simp) (by simpa using hua.2.2.2.1.trans hsock)
      rw [hw] at hm
      exact List.mem_append_left _ hm
    · have := destroy_stage s1
      rw [hd2] at this
      exact this

theorem socks5_method_selection_witness :
    (Action.send Tgt.local [0x05, 0x00] ∈
        (handleEvent {envDefault with recvLocal := RecvRes.ok [5, 1, 0]}
          sClientInit Tgt.local POLL_IN).2 ∧
      (handleEvent {envDefault with recvLocal := RecvRes.ok [5, 1, 0]}
          sClientInit Tgt.local POLL_IN).1.stage = Stage.addr) ∧
    ((handleEvent {envDefault with recvLocal := RecvRes.ok [5, 2, 0]}
          sClientInit Tgt.local POLL_IN).1.stage = Stage.destroyed ∧
      ∀ tg da, Action.send tg da ∉
        (handleEvent {envDefault with recvLocal := RecvRes.ok [5, 2, 0]}
          sClientInit Tgt.local POLL_IN).2) ∧
    (Action.send Tgt.local [0x05, 0xff] ∈
        (handleEvent {envDefault with recvLocal := RecvRes.ok [5, 1, 2]}
          sClientInit Tgt.local POLL_IN).2 ∧
      (handleEvent {envDefault with recvLocal := RecvRes.ok [5, 1, 2]}
          sClientInit Tgt.local POLL_IN).1.stage = Stage.destroyed) :=
  ⟨(socks5_method_selection _ sClientInit [5, 1, 0] rfl rfl rfl rfl rfl).1
      (by refine ⟨by decide, by decide, by decide, by decide, by decide⟩),
   (socks5_method_selection _ sClientInit [5, 2, 0] rfl rfl rfl rfl rfl).2.1
      (Or.inr (Or.inr (Or.inr (by decide)))),
   (socks5_method_selection _ sClientInit [5, 1, 2] rfl rfl rfl rfl rfl).2.2
      ⟨by decide, by decide, by decide, by decide, by decide⟩⟩


/-- C9: in any non-DESTROYED stage, a zero-byte read (peer EOF) on either
socket destroys the handler, while a transient read error
(`ETIMEDOUT`/`EAGAIN`/`EWOULDBLOCK`) leaves the state completely
unchanged. -/
theorem eof_destroys_transient_noop (s : HandlerState)
    (hstage : s.stage ≠ Stage.destroyed)
    (hl : s.localSock = true) (hr : s.remoteSock = true) :
    (∀ env : Env, env.recvLocal = RecvRes.ok [] →
      (handleEvent env s Tgt.local POLL_IN).1.stage = Stage.destroyed) ∧
    (∀ env : Env, env.recvLocal = RecvRes.errTransient →
      handleEvent env s Tgt.local POLL_IN = (s, [])) ∧
    (∀ env : Env, env.recvRemote = RecvRes.ok [] →
      (handleEvent env s Tgt.remote POLL_IN).1.stage = Stage.destroyed) ∧
    (∀ env : Env, env.recvRemote = RecvRes.errTransient →
      handleEvent env s Tgt.remote POLL_IN = (s, [])) := by
  refine ⟨?_, ?_, ?_, ?_⟩
  · intro env h
    rw [handleEvent_local_eof env s hstage hl h]
    exact destroy_stage s
  · intro env h
    exact handleEvent_local_transient env s hstage hl h
  · intro env h
    rw [handleEvent_remote_eof env s hstage hr h]
    exact destroy_stage s
  · intro env h
    exact handleEvent_remote_transient env s hstage hr h

theorem eof_destroys_transient_noop_witness :
    (handleEvent {envDefault with recvLocal := RecvRes.ok []}
        sClientStream Tgt.local POLL_IN).1.stage = Stage.destroyed ∧
    handleEvent {envDefault with recvLocal := RecvRes.errTransient}
        sClientStream Tgt.local POLL_IN = (sClientStream, []) ∧
    (handleEvent {envDefault with recvRemote := RecvRes.ok []}
        sClientStream Tgt.remote POLL_IN).1.stage = Stage.destroyed ∧
    handleEvent {envDefault with recvRemote := RecvRes.errTransient}
        sClientStream Tgt.remote POLL_IN = (sClientStream, []) :=
  ⟨(eof_destroys_transient_noop sClientStream (by decide) rfl rfl).1 _ rfl,
   (eof_destroys_transient_noop sClientStream (by decide) rfl rfl).2.1 _ rfl,
   (eof_destroys_transient_noop sClientStream (by decide) rfl rfl).2.2.1 _ rfl,
   (eof_destroys_transient_noop sClientStream (by decide) rfl rfl).2.2.2 _ rfl⟩

/-- C7: in server role with `one_time_auth` required, a parsed address-type
byte without the `0x10` bit makes `_handle_stage_addr` warn and return:
the stage, sockets and outbound queue are untouched (no destroy, nothing
forwarded) and no DNS resolution is requested. -/
theorem server_missing_ota_ignored (env : Env) (s : HandlerState) (d : List Nat)
    (atyp : Nat) (raddr : List Nat) (rport hlen : Nat)
    (hrole : s.isLocal = false) (hota : s.otaEnable = true)
    (hparse : parseHeader d = some (atyp, raddr, rport, hlen))
    (hbit : atyp &&& ADDRTYPE_AUTH = 0) :
    handleStageAddr env s d = ({s with otaEnableSession := false}, [Action.warn]) ∧
    (handleStageAddr env s d).1.stage = s.stage ∧
    (handleStageAddr env s d).1.localSock = s.localSock ∧
    (handleStageAddr env s d).1.remoteSock = s.remoteSock ∧
    (handleStageAddr env s d).1.dataToRemote = s.dataToRemote ∧
    (∀ hb, Action.resolve hb ∉ (handleStageAddr env s d).2) := by
  have hmain : handleStageAddr env s d =
      ({s with otaEnableSession := false}, [Action.warn]) := by
    simp [handleStageAddr, handleStageAddrInner, stageAddrParsed, guardDestroy,
      hrole, hparse, hbit, hota]
  refine ⟨hmain, ?_, ?_, ?_, ?_, ?_⟩ <;> simp [hmain]

theorem server_missing_ota_ignored_witness :
    handleStageAddr envDefault sServerInitOta [1, 192, 0, 2, 1, 0, 80] =
      ({sServerInitOta with otaEnableSession := false}, [Action.warn]) ∧
    (handleStageAddr envDefault sServerInitOta [1, 192, 0, 2, 1, 0, 80]).1.stage =
      sServerInitOta.stage ∧
    (handleStageAddr envDefault sServerInitOta [1, 192, 0, 2, 1, 0, 80]).1.localSock =
      sServerInitOta.localSock ∧
    (handleStageAddr envDefault sServerInitOta [1, 192, 0, 2, 1, 0, 80]).1.remoteSock =
      sServerInitOta.remoteSock ∧
    (handleStageAddr envDefault sServerInitOta [1, 192, 0, 2, 1, 0, 80]).1.dataToRemote =
      sServerInitOta.dataToRemote ∧
    (∀ hb, Action.resolve hb ∉
      (handleStageAddr envDefault sServerInitOta [1, 192, 0, 2, 1, 0, 80]).2) :=
  server_missing_ota_ignored envDefault sServerInitOta [1, 192, 0, 2, 1, 0, 80]
    1 [192, 0, 2, 1] 80 7 rfl rfl (by decide) (by decide)

/-- C5 (counterexample): a decrypt failure on the true downstream path —
a client-role handler in STREAM reading from the remote socket — destroys
the handler (via the outer exception handler), contradicting the claim
that the handler is not destroyed. -/
theorem downstream_decrypt_failure_destroys :
    (handleEvent envDecryptFail sClientStream Tgt.remote POLL_IN).1.stage =
      Stage.destroyed := by
  decide

/-- C5 (amended): the log-and-drop disposition applies to decrypt failures
on data read from the *local* socket at the server (client-to-destination
traffic); a decrypt failure on the client's *remote* read (the true
downstream direction) destroys the handler via the outer exception
handler. -/
theorem decrypt_failure_dispositions (env : Env) (s : HandlerState) (bs : List Nat)
    (hbs : bs ≠ []) (hdec : env.decrypt bs = none) :
    (s.isLocal = false → s.stage = Stage.stream → s.localSock = true →
      env.recvLocal = RecvRes.ok bs →
      handleEvent env s Tgt.local POLL_IN = (updateActivity env s, [Action.logError])) ∧
    (s.isLocal = true → s.stage = Stage.stream → s.remoteSock = true →
      env.recvRemote = RecvRes.ok bs →
      (handleEvent env s Tgt.remote POLL_IN).1.stage = Stage.destroyed) := by
  constructor
  · intro h1 h2 h3 h4
    have hua := updateActivity_fields env s
    simp [handleEvent, handleEventInner, guardDestroy, onLocalRead, h1, h2, h3, h4, hbs,
      hdec, POLL_IN, POLL_ERR, POLL_HUP, POLL_OUT, hua.1, hua.2.2.1]
  · intro h1 h2 h3 h4
    have hua := updateActivity_fields env s
    simp [handleEvent, handleEventInner, guardDestroy, onRemoteRead, h1, h2, h3, h4, hbs,
      hdec, POLL_IN, POLL_ERR, POLL_HUP, POLL_OUT, hua.1, destroy_stage]

theorem decrypt_failure_dispositions_witness :
    handleEvent envDecryptFail sServerStream Tgt.local POLL_IN =
      (updateActivity envDecryptFail sServerStream, [Action.logError]) ∧
    (handleEvent envDecryptFail sClientStream Tgt.remote POLL_IN).1.stage =
      Stage.destroyed :=
  ⟨(decrypt_failure_dispositions envDecryptFail sServerStream [2] (by decide) rfl).1
      rfl rfl rfl rfl,
   (decrypt_failure_dispositions envDecryptFail sClientStream [1] (by decide) rfl).2
      rfl rfl rfl rfl⟩


theorem updateStream_down (s : HandlerState) (st : Nat) :
    (updateStream s StreamDir.down st).1.downstreamStatus = st ∧
    (updateStream s StreamDir.down st).1.dataToLocal = s.dataToLocal ∧
    (updateStream s StreamDir.down st).1.dataToRemote = s.dataToRemote := by
  unfold updateStream
  by_cases h : s.downstreamStatus ≠ st
  · simp [h]
  · have heq := not_ne_iff.mp h
    simp [h, heq]

theorem updateStream_up (s : HandlerState) (st : Nat) :
    (updateStream s StreamDir.up st).1.upstreamStatus = st ∧
    (updateStream s StreamDir.up st).1.dataToLocal = s.dataToLocal ∧
    (updateStream s StreamDir.up st).1.dataToRemote = s.dataToRemote := by
  unfold updateStream
  by_cases h : s.upstreamStatus ≠ st
  · simp [h]
  · have heq := not_ne_iff.mp h
    simp [h, heq]

theorem localEventMask_pollout (s : HandlerState)
    (h : s.downstreamStatus = WAIT_STATUS_WRITING) :
    localEventMask s &&& POLL_OUT ≠ 0 := by
  unfold localEventMask
  rw [if_pos (by rw [h]; decide)]
  by_cases h2 : s.upstreamStatus &&& WAIT_STATUS_READING ≠ 0
  · rw [if_pos h2]
    decide
  · rw [if_neg h2]
    decide

theorem localEventMask_no_pollout (s : HandlerState)
    (h : s.downstreamStatus = WAIT_STATUS_READING) :
    localEventMask s &&& POLL_OUT = 0 := by
  unfold localEventMask
  rw [if_neg (by rw [h]; decide)]
  by_cases h2 : s.upstreamStatus &&& WAIT_STATUS_READING ≠ 0
  · rw [if_pos h2]
    decide
  · rw [if_neg h2]
    decide

theorem remoteEventMask_pollout (s : HandlerState)
    (h : s.upstreamStatus = WAIT_STATUS_WRITING) :
    remoteEventMask s &&& POLL_OUT ≠ 0 := by
  unfold remoteEventMask
  rw [show (if s.upstreamStatus &&& WAIT_STATUS_WRITING ≠ 0 then POLL_OUT else 0) =
      POLL_OUT from if_pos (by rw [h]; decide)]
  by_cases h2 : s.downstreamStatus &&& WAIT_STATUS_READING ≠ 0
  · rw [if_pos h2]
    decide
  · rw [if_neg h2]
    decide

/-- C8: a partial send buffers the unsent remainder on that socket's
pending queue and switches the direction to WAIT_WRITING (whose
recomputed registration mask contains POLL_OUT); a complete send leaves
the direction in WAIT_READING; and a later POLL_OUT (`_on_local_write`)
drains the buffer and drops the WRITE state. -/
theorem buffered_write_then_drain (env : Env) (s : HandlerState)
    (data : List Nat) (n : Nat) :
    (s.localSock = true → data ≠ [] → env.send Tgt.local data = SendRes.ok n →
      n < data.length →
      ((writeToSock env s data Tgt.local).1.dataToLocal =
          s.dataToLocal ++ [data.drop n] ∧
        (writeToSock env s data Tgt.local).1.downstreamStatus = WAIT_STATUS_WRITING ∧
        localEventMask (writeToSock env s data Tgt.local).1 &&& POLL_OUT ≠ 0)) ∧
    (s.remoteSock = true → data ≠ [] → env.send Tgt.remote data = SendRes.ok n →
      n < data.length →
      ((writeToSock env s data Tgt.remote).1.dataToRemote =
          s.dataToRemote ++ [data.drop n] ∧
        (writeToSock env s data Tgt.remote).1.upstreamStatus = WAIT_STATUS_WRITING ∧
        remoteEventMask (writeToSock env s data Tgt.remote).1 &&& POLL_OUT ≠ 0)) ∧
    (s.localSock = true → data ≠ [] → env.send Tgt.local data = SendRes.ok data.length →
      (writeToSock env s data Tgt.local).1.downstreamStatus = WAIT_STATUS_READING) ∧
    (s.dataToLocal ≠ [] → s.dataToLocal.flatten ≠ [] → s.localSock = true →
      env.send Tgt.local s.dataToLocal.flatten =
        SendRes.ok s.dataToLocal.flatten.length →
      ((onLocalWrite env s).1.dataToLocal = [] ∧
        (onLocalWrite env s).1.downstreamStatus = WAIT_STATUS_READING ∧
        localEventMask (onLocalWrite env s).1 &&& POLL_OUT = 0)) := by
  refine ⟨?_, ?_, ?_, ?_⟩
  · intro hl hne hsend hlt
    simp only [writeToSock]
    rw [if_neg (by simp [hne, hl])]
    simp only [hsend]
    rw [if_pos hlt]
    obtain ⟨u1, u2, u3⟩ :=
      updateStream_down {s with dataToLocal := s.dataToLocal ++ [data.drop n]}
        WAIT_STATUS_WRITING
    exact ⟨by simpa using u2, by simpa using u1,
      localEventMask_pollout _ (by simpa using u1)⟩
  · intro hr hne hsend hlt
    simp only [writeToSock]
    rw [if_neg (by simp [hne, hr])]
    simp only [hsend]
    rw [if_pos hlt]
    obtain ⟨u1, u2, u3⟩ :=
      updateStream_up {s with dataToRemote := s.dataToRemote ++ [data.drop n]}
        WAIT_STATUS_WRITING
    exact ⟨by simpa using u3, by simpa using u1,
      remoteEventMask_pollout _ (by simpa using u1)⟩
  · intro hl hne hsend
    simp only [writeToSock]
    rw [if_neg (by simp [hne, hl])]
    simp only [hsend]
    rw [if_neg (lt_irrefl _)]
    exact (updateStream_down s WAIT_STATUS_READING).1
  · intro hb hj hl hsend
    simp only [onLocalWrite]
    rw [if_pos hb]
    simp only [writeToSock]
    rw [if_neg (by simp [hj, hl])]
    simp only [hsend]
    rw [if_neg (lt_irrefl _)]
    obtain ⟨u1, u2, u3⟩ :=
      updateStream_down {s with dataToLocal := []} WAIT_STATUS_READING
    exact ⟨by simpa using u2, u1, localEventMask_no_pollout _ u1⟩

theorem buffered_write_then_drain_witness :
    ((writeToSock {envDefault with send := fun _ _ => SendRes.ok 1}
        sClientStream [7, 8] Tgt.local).1.dataToLocal =
          sClientStream.dataToLocal ++ [[8]] ∧
      (writeToSock {envDefault with send := fun _ _ => SendRes.ok 1}
        sClientStream [7, 8] Tgt.local).1.downstreamStatus = WAIT_STATUS_WRITING ∧
      localEventMask (writeToSock {envDefault with send := fun _ _ => SendRes.ok 1}
        sClientStream [7, 8] Tgt.local).1 &&& POLL_OUT ≠ 0) ∧
    ((onLocalWrite envDefault {sClientStream with dataToLocal := [[9]]}).1.dataToLocal = [] ∧
      (onLocalWrite envDefault
        {sClientStream with dataToLocal := [[9]]}).1.downstreamStatus = WAIT_STATUS_READING ∧
      localEventMask (onLocalWrite envDefault
        {sClientStream with dataToLocal := [[9]]}).1 &&& POLL_OUT = 0) :=
  ⟨(buffered_write_then_drain {envDefault with send := fun _ _ => SendRes.ok 1}
      sClientStream [7, 8] 1).1 rfl (by decide) rfl (by decide),
   (buffered_write_then_drain envDefault
      {sClientStream with dataToLocal := [[9]]} [9] 0).2.2.2
      (by decide) (by decide) rfl rfl⟩

end TcpRelay
